import Mathlib

/-!
Formal model of the Roam Image Tools browser extension (qcrao/image-tools).

The development shallowly embeds the DOM-manipulating service
(`ImageToolsService` in `src/services/imageToolsService.ts`), the extension
lifecycle (`index.tsx`: `initializeImageTools`, `onload`, `onunload`), the
settings-driven style injection of the configured service variant
(`getIconSizeInPx`, parameterized `injectCustomStyles`), the mutation-observer
callback, and the copy/save fallback chains.  Documents are modelled as
rose trees of DOM nodes; the handful of browser capabilities the fallback
chains probe (clipboard, canvas, execCommand, ...) are modelled as boolean
capability records, and each chain is a pure function from capabilities to
its observable outcome.
-/

namespace ImageTools

/-- Class name marking a tool container (`TOOLS_CONTAINER_CLASS`). -/
def TOOLS_CONTAINER_CLASS : String := "roam-image-tools"

/-- Element id of the injected style block. -/
def STYLE_ID : String := "image-tools-styles"

mutual

/-- A DOM node: either a text node or an element carrying a tag name, an
element id, a class list, a `title` attribute, its inner HTML, a `src`
attribute, a `crossOrigin` attribute, and a forest of children. -/
inductive DomNode : Type where
  | text (s : String) : DomNode
  | elem (tag eid : String) (classes : List String)
      (title inner src cross : String) (children : DomForest) : DomNode

/-- A forest of sibling DOM nodes, in document order. -/
inductive DomForest : Type where
  | nil : DomForest
  | cons (hd : DomNode) (tl : DomForest) : DomForest

end

/-- Whether a node is an element node (`nodeType === Node.ELEMENT_NODE`). -/
def DomNode.isElem : DomNode → Bool
  | .text _ => false
  | .elem _ _ _ _ _ _ _ _ => true

/-- Whether a node is an image element (`tagName === "IMG"`). -/
def DomNode.isImg : DomNode → Bool
  | .text _ => false
  | .elem t _ _ _ _ _ _ _ => t == "IMG"

/-- Whether an element's class list contains class `c`
(`classList.contains(c)`); false on text nodes. -/
def DomNode.hasClass (c : String) : DomNode → Bool
  | .text _ => false
  | .elem _ _ cs _ _ _ _ _ => cs.contains c

/-- The children of a node (empty for text nodes). -/
def DomNode.childrenF : DomNode → DomForest
  | .text _ => .nil
  | .elem _ _ _ _ _ _ _ ch => ch

/-- The `title` attribute of a node (empty for text nodes). -/
def DomNode.titleAttr : DomNode → String
  | .text _ => ""
  | .elem _ _ _ t _ _ _ _ => t

/-- First element node of a sibling forest, skipping text nodes: the
`nextElementSibling` of the node the forest follows. -/
def DomForest.firstElem : DomForest → Option DomNode
  | .nil => none
  | .cons (.text _) tl => tl.firstElem
  | .cons n _ => some n

/-- Whether the next element sibling described by forest `f` carries class
`c` (the duplicate-attachment check `nextElementSibling?.classList.contains`). -/
def DomForest.hasClassHead (c : String) (f : DomForest) : Bool :=
  match f.firstElem with
  | some n => n.hasClass c
  | none => false

/-- Concatenation of sibling forests. -/
def DomForest.append : DomForest → DomForest → DomForest
  | .nil, g => g
  | .cons n tl, g => .cons n (tl.append g)

/-- Number of elements in the whole forest (all depths) carrying class `c`:
the size of `document.querySelectorAll("." + c)` scoped to the forest. -/
def DomForest.countClass (c : String) : DomForest → Nat
  | .nil => 0
  | .cons (.text _) tl => tl.countClass c
  | .cons (.elem _ _ cs _ _ _ _ ch) tl =>
      (if cs.contains c then 1 else 0) + ch.countClass c + tl.countClass c

/-- Number of top-level (sibling) nodes of the forest carrying class `c`. -/
def DomForest.topCount (c : String) : DomForest → Nat
  | .nil => 0
  | .cons n tl => (if n.hasClass c then 1 else 0) + tl.topCount c

/-- Effect of `removeAllImageTools`-style bulk removal: every element
carrying class `c`, at any depth, is removed from the forest (removing an
element also discards its subtree, exactly as `element.remove()` does). -/
def DomForest.removeAllByClass (c : String) : DomForest → DomForest
  | .nil => .nil
  | .cons (.text s) tl => .cons (.text s) (tl.removeAllByClass c)
  | .cons (.elem t i cs ti inn sr cr ch) tl =>
      if cs.contains c then tl.removeAllByClass c
      else .cons (.elem t i cs ti inn sr cr (ch.removeAllByClass c))
        (tl.removeAllByClass c)

/-- All image elements contained in the forest, in document order
(`querySelectorAll("img")` over the forest's subtrees). -/
def DomForest.allImgs : DomForest → List DomNode
  | .nil => []
  | .cons (.text _) tl => tl.allImgs
  | .cons (.elem t i cs ti inn sr cr ch) tl =>
      (if t == "IMG" then [DomNode.elem t i cs ti inn sr cr ch] else [])
        ++ ch.allImgs ++ tl.allImgs

/-- The image descendants of one node (`element.querySelectorAll("img")`:
descendants only, never the element itself). -/
def DomNode.descImgs : DomNode → List DomNode
  | .text _ => []
  | .elem _ _ _ _ _ _ _ ch => ch.allImgs

/-! ## Tool attachment (`addToolsToImage`)

`addToolsToImage` touches only: the image's `crossOrigin` attribute, the
parent's computed `position`, and the parent's child list right after the
image.  `ImgCtx` captures exactly that slice of the document: the siblings
before the image, the image's own attributes, the siblings after it
(`postSibs`, whose head position is where `insertBefore(container,
img.nextSibling)` inserts), and the parent's position value. -/

/-- The local context of one image target inside its parent element. -/
structure ImgCtx where
  preSibs : DomForest
  imgEid : String
  imgClasses : List String
  imgTitle : String
  imgInner : String
  imgSrc : String
  imgCross : String
  postSibs : DomForest
  parentPosition : String

/-- The duplicate-attachment precondition of `addToolsToImage`:
`img.nextElementSibling?.classList.contains(TOOLS_CONTAINER_CLASS)`. -/
def hasToolsNext (ctx : ImgCtx) : Bool :=
  ctx.postSibs.hasClassHead TOOLS_CONTAINER_CLASS

/-- The zoom button built by the device-branched `addToolsToImage` of
`imageToolsService.ts` (mobile branch). -/
def zoomButton : DomNode :=
  .elem "BUTTON" "" [] "Zoom image" "👁️" "" "" .nil

/-- The copy button built by the device-branched `addToolsToImage` of
`imageToolsService.ts` (desktop branch). -/
def copyButton : DomNode :=
  .elem "BUTTON" "" [] "Copy image" "📋" "" "" .nil

/-- The tool container built by the device-branched `addToolsToImage` of
`imageToolsService.ts`: a `div` with the marker class containing the zoom
button when `matchMedia("(max-width: 768px)")` matches and the copy button
otherwise. -/
def toolsContainer (isMobile : Bool) : DomNode :=
  .elem "DIV" "" [TOOLS_CONTAINER_CLASS] "" "" "" ""
    (if isMobile then .cons zoomButton .nil else .cons copyButton .nil)

/-- `ImageToolsService.addToolsToImage` of `imageToolsService.ts`: return
unchanged if the next element sibling already carries the marker class;
otherwise set `crossOrigin = "anonymous"`, give the parent a `relative`
position if it is `static`, and insert the device-branched tool container
immediately after the image. -/
def addToolsToImage (isMobile : Bool) (ctx : ImgCtx) : ImgCtx :=
  if hasToolsNext ctx then ctx
  else
    { ctx with
      imgCross := "anonymous",
      parentPosition :=
        if ctx.parentPosition = "static" then "relative" else ctx.parentPosition,
      postSibs := .cons (toolsContainer isMobile) ctx.postSibs }

/-- Zoom button of the `part_003` revision (`createToolButton("👁️", "Zoom image", ...)`). -/
def zoomButtonP3 : DomNode :=
  .elem "BUTTON" "" [] "Zoom image" "👁️" "" "" .nil

/-- Copy button of the `part_003` revision (`createToolButton("📋", "Copy image", ...)`). -/
def copyButtonP3 : DomNode :=
  .elem "BUTTON" "" [] "Copy image" "📋" "" "" .nil

/-- Save button of the `part_003` revision (`createToolButton("💾", "Save image", ...)`). -/
def saveButtonP3 : DomNode :=
  .elem "BUTTON" "" [] "Save image" "💾" "" "" .nil

/-- Tool container of the `part_003` revision of `addToolsToImage`: zoom,
copy and save buttons are all appended, with no device branching. -/
def toolsContainerP3 : DomNode :=
  .elem "DIV" "" [TOOLS_CONTAINER_CLASS] "" "" "" ""
    (.cons zoomButtonP3 (.cons copyButtonP3 (.cons saveButtonP3 .nil)))

/-- `addToolsToImage` of the `part_003` revision: identical control flow to
the device-branched variant but always inserts the three-button container. -/
def addToolsToImageP3 (ctx : ImgCtx) : ImgCtx :=
  if hasToolsNext ctx then ctx
  else
    { ctx with
      imgCross := "anonymous",
      parentPosition :=
        if ctx.parentPosition = "static" then "relative" else ctx.parentPosition,
      postSibs := .cons toolsContainerP3 ctx.postSibs }

/-- Whether a forest contains a top-level button titled `t`. -/
def DomForest.containsTitle (t : String) : DomForest → Bool
  | .nil => false
  | .cons n tl => (n.titleAttr == t) || tl.containsTitle t

/-- Whether a node is a container holding a save control. -/
def DomNode.hasSaveControl (n : DomNode) : Bool :=
  n.childrenF.containsTitle "Save image"

/-- Whether the image's next element sibling is a container holding a save
control. -/
def nextContainerHasSave (ctx : ImgCtx) : Bool :=
  match ctx.postSibs.firstElem with
  | some n => n.hasSaveControl
  | none => false

/-- A sample context: an image `a.png` mounted alone under a statically
positioned parent, with no siblings. -/
def sampleCtx : ImgCtx :=
  ⟨.nil, "", [], "", "", "a.png", "", .nil, "static"⟩

/-- A sample context whose image already has a tool container as its next
sibling. -/
def sampleCtxMarked : ImgCtx :=
  ⟨.nil, "", [], "", "", "a.png", "", .cons (toolsContainer false) .nil, "static"⟩

/-! ## Style registry

The configured revision (`part_003`) parameterizes the injected stylesheet
by the `icon-size` and `icon-opacity` settings; `getIconSizeInPx` maps the
size category to pixels.  Every call to `injectCustomStyles` first removes
the existing style block found by `getElementById("image-tools-styles")`
(the first block with that id, in document order), appends a freshly built
block to the head, and registers one more `"imageTools:settings:changed"`
listener on the window.  No code path ever removes such a listener. -/

/-- `getIconSizeInPx` of `part_003`: small maps to 14, large to 22, and
medium (the `default` branch included) to 18. -/
def getIconSizeInPx (iconSize : String) : Nat :=
  if iconSize = "small" then 14
  else if iconSize = "large" then 22
  else 18

/-- One `<style>` block in the document head, as far as this engine reads
it: its element id and the configuration-derived values baked into its CSS
text. -/
structure StyleBlock where
  sid : String
  fontSizePx : Nat
  gapPx : Nat
  opacityPct : Nat
deriving DecidableEq

/-- The style block `injectCustomStyles` builds from the current settings:
button `font-size` is `getIconSizeInPx()` pixels, the container gap is a
quarter of that, and the background alpha comes from the opacity setting. -/
def mkStyleBlock (size : String) (op : Nat) : StyleBlock :=
  ⟨STYLE_ID, getIconSizeInPx size, getIconSizeInPx size / 4, op⟩

/-- Remove the first block with element id `i`
(`getElementById(i)` followed by `.remove()`; a no-op when absent). -/
def removeFirstById (i : String) : List StyleBlock → List StyleBlock
  | [] => []
  | b :: bs => if b.sid = i then bs else b :: removeFirstById i bs

/-- Number of blocks in the head with element id `i`. -/
def countById (i : String) (l : List StyleBlock) : Nat :=
  l.countP (fun b => b.sid = i)

/-- First block with element id `i` (`getElementById` semantics). -/
def findById (i : String) (l : List StyleBlock) : Option StyleBlock :=
  l.find? (fun b => b.sid = i)

/-- The state the style registry touches: the document head's style blocks
and the number of `"imageTools:settings:changed"` window listeners. -/
structure StyleState where
  head : List StyleBlock
  listeners : Nat
deriving DecidableEq

/-- `injectCustomStyles` (configured revision): remove the prior block with
the fixed id, append a newly built block, and add one settings-changed
listener.  The unconfigured `imageToolsService.ts` revision is this
function at the default configuration (`"medium"`, i.e. 18px). -/
def injectCustomStyles (size : String) (op : Nat) (s : StyleState) : StyleState :=
  { head := removeFirstById STYLE_ID s.head ++ [mkStyleBlock size op],
    listeners := s.listeners + 1 }

/-- The rendered button font size: the `font-size` of the block
`getElementById(STYLE_ID)` currently resolves to. -/
def currentFontSize (s : StyleState) : Option Nat :=
  (findById STYLE_ID s.head).map (fun b => b.fontSizePx)

/-! ## Copy fallback chain

`copyImageToClipboard` and `fallbackCopyImage` of `imageToolsService.ts`.
Each platform capability either succeeds or fails; `CopyCaps` records which.
`toBlobThrows` is `canvas.toBlob` raising synchronously (e.g. a tainted
canvas), while `blobNull` is the callback being handed a null blob. -/

/-- Outcome of the platform capabilities probed by the copy chain. -/
structure CopyCaps where
  fetchOk : Bool
  clipboardApiAvail : Bool
  clipboardWriteOk : Bool
  canvasCtxOk : Bool
  toBlobThrows : Bool
  blobNull : Bool
  execCommandOk : Bool
  textWriteOk : Bool
deriving DecidableEq

/-- Observable outcome of the copy chain. -/
inductive CopyResult : Type where
  | imageOnClipboard
  | imageViaExecCommand
  | urlOnClipboard
  | successIndicatorOnly
  | uncaughtError
  | unhandledRejection
deriving DecidableEq

/-- `fallbackCopyImage`: acquire a 2d context (a `null` context throws, and
the outermost catch only shows the success indicator); call `canvas.toBlob`
(a synchronous throw is caught by the inner catch, which falls back to
copying the URL); inside the async callback a null blob throws where no
handler is installed; otherwise try `execCommand("copy")` and finally
`navigator.clipboard.writeText(img.src)`, whose rejection has no handler. -/
def fallbackCopyImage (c : CopyCaps) : CopyResult :=
  if c.canvasCtxOk = false then .successIndicatorOnly
  else if c.toBlobThrows then
    (if c.textWriteOk then .urlOnClipboard else .unhandledRejection)
  else if c.blobNull then .uncaughtError
  else if c.execCommandOk then .imageViaExecCommand
  else if c.textWriteOk then .urlOnClipboard
  else .unhandledRejection

/-- `copyImageToClipboard`: fetch the image (failure falls back), require
`navigator.clipboard && window.ClipboardItem` (absence or a throwing
`ClipboardItem` constructor falls back), then `navigator.clipboard.write`
(rejection falls back; success copies the image). -/
def copyImageToClipboard (c : CopyCaps) : CopyResult :=
  if c.fetchOk = false then fallbackCopyImage c
  else if c.clipboardApiAvail = false then fallbackCopyImage c
  else if c.clipboardWriteOk then .imageOnClipboard
  else fallbackCopyImage c

/-! ## Save (`saveImage` of `part_003`) -/

/-- The anchor used for the link-based download. -/
structure DownloadLink where
  href : String
  filename : String
deriving DecidableEq

/-- The filename `saveImage` assigns: `"image-" + Date.getTime() + ".png"`. -/
def saveFilename (now : Nat) : String :=
  "image-" ++ toString now ++ ".png"

/-- `saveImage`: build an anchor with `href = img.src` and the
timestamp-derived download filename and click it; the second component is
the `if (!link.download)` test that would trigger the context-menu
simulation fallback. -/
def saveImage (src : String) (now : Nat) : DownloadLink × Bool :=
  let link : DownloadLink := ⟨src, saveFilename now⟩
  (link, link.filename == "")

/-! ## Mutation observer callback (`createImageObserver`) -/

/-- One entry of the batch handed to the `MutationObserver` callback. -/
structure MutationRecord where
  mutType : String
  addedNodes : List DomNode

/-- The images the callback derives from one added node: nothing for
non-element nodes; the node itself when its tag is `IMG`; otherwise the
node's image descendants (`element.querySelectorAll("img")`). -/
def addedImagesOfNode (n : DomNode) : List DomNode :=
  if n.isElem then (if n.isImg then [n] else n.descImgs) else []

/-- All candidate images of a mutation batch: the callback iterates the
records, skips those whose type is not `"childList"`, and processes every
added node of the remaining ones. -/
def batchImages (muts : List MutationRecord) : List DomNode :=
  (muts.filter (fun m => m.mutType = "childList")).flatMap
    (fun m => m.addedNodes.flatMap addedImagesOfNode)

/-! ## Lifecycle (`index.tsx`)

`initializeImageTools` disconnects the previously held observer, runs the
full-document scan `addToolsToImages`, and creates a fresh connected
observer, retaining its handle.  `onunload` disconnects and clears the
held observer, removes the style block found by
`getElementById("image-tools-styles")`, and bulk-removes every tool
container.  Host insertions of new subtrees are decorated by the observer
callback only while some observer is connected. -/

/-- Mark an image's `crossOrigin` attribute `"anonymous"`; identity on
anything that is not an element. -/
def DomNode.setCross : DomNode → DomNode
  | .text s => .text s
  | .elem t i cs ti inn sr _ ch => .elem t i cs ti inn sr "anonymous" ch

/-- The document-scan pass of `addToolsToImages` (and, with `inArt` fixed
to `true`, the per-inserted-subtree pass of the observer callback, whose
`querySelectorAll("img")` is not scoped to `.roam-article`): walk the
forest in document order; at an image inside the scope whose next element
sibling does not carry the marker class, set `crossOrigin` and insert the
device-branched container right after it; descend into other elements,
entering the scope at elements classed `roam-article`. -/
def DomForest.scan (m : Bool) (inArt : Bool) : DomForest → DomForest
  | .nil => .nil
  | .cons (.text s) tl => .cons (.text s) (tl.scan m inArt)
  | .cons (.elem t i cs ti inn sr cr ch) tl =>
      if t == "IMG" && inArt then
        (if tl.hasClassHead TOOLS_CONTAINER_CLASS then
          .cons (.elem t i cs ti inn sr cr ch) (tl.scan m inArt)
        else
          .cons ((DomNode.elem t i cs ti inn sr cr ch).setCross)
            (.cons (toolsContainer m) (tl.scan m inArt)))
      else
        .cons (.elem t i cs ti inn sr cr
            (ch.scan m (inArt || cs.contains "roam-article")))
          (tl.scan m inArt)

/-- The whole state the extension entry points touch: the document body's
forest, the style registry state, the connection status of every observer
ever created (index = creation order), and the module-level
`imageToolsObserver` reference. -/
structure SysState where
  doc : DomForest
  styles : StyleState
  observers : List Bool
  held : Option Nat

/-- Number of connected mutation-observer subscriptions. -/
def activeCount (s : SysState) : Nat := s.observers.count true

/-- `if (imageToolsObserver) imageToolsObserver.disconnect()`. -/
def disconnectHeld (s : SysState) : SysState :=
  match s.held with
  | some i => { s with observers := s.observers.set i false }
  | none => s

/-- `initializeImageTools` of `index.tsx`: disconnect any previously held
observer, run `addToolsToImages`, create a fresh connected observer and
retain its handle. -/
def initializeImageTools (m : Bool) (s : SysState) : SysState :=
  { doc := (disconnectHeld s).doc.scan m false,
    styles := (disconnectHeld s).styles,
    observers := (disconnectHeld s).observers ++ [true],
    held := some (disconnectHeld s).observers.length }

/-- `injectCustomStyles` lifted to the system state. -/
def sysInject (size : String) (op : Nat) (s : SysState) : SysState :=
  { s with styles := injectCustomStyles size op s.styles }

/-- Dispatch of the `"imageTools:settings:changed"` event: every listener
registered at dispatch time runs `injectCustomStyles` once (listeners
added while the event is being dispatched are not invoked for it). -/
def dispatchSettingsChanged (size : String) (op : Nat) (s : SysState) : SysState :=
  { s with styles := (injectCustomStyles size op)^[s.styles.listeners] s.styles }

/-- `onunload` of `index.tsx`: disconnect and clear the held observer,
remove the style block `getElementById("image-tools-styles")` resolves to,
and bulk-remove every tool container (`removeAllImageTools`). -/
def onunload (s : SysState) : SysState :=
  { doc := (disconnectHeld s).doc.removeAllByClass TOOLS_CONTAINER_CLASS,
    styles := { head := removeFirstById STYLE_ID (disconnectHeld s).styles.head,
                listeners := (disconnectHeld s).styles.listeners },
    observers := (disconnectHeld s).observers,
    held := none }

/-- The host appends new subtrees to the document body; while some
observer is connected, the observer callback decorates the inserted
subtrees (and only them). -/
def hostInsert (m : Bool) (ns : DomForest) (s : SysState) : SysState :=
  { s with
    doc := s.doc.append (if s.observers.any (· == true) then ns.scan m true else ns) }

/-- The system states reachable from a fresh page (arbitrary host document,
no injected styles, no listeners, no observers) by any interleaving of
style injections, activations, host insertions, settings-changed
dispatches, and unloads. -/
inductive Reachable : SysState → Prop where
  | start (f : DomForest) : Reachable ⟨f, ⟨[], 0⟩, [], none⟩
  | inject (size : String) (op : Nat) {s : SysState} :
      Reachable s → Reachable (sysInject size op s)
  | activate (m : Bool) {s : SysState} :
      Reachable s → Reachable (initializeImageTools m s)
  | insert (m : Bool) (ns : DomForest) {s : SysState} :
      Reachable s → Reachable (hostInsert m ns s)
  | settings (size : String) (op : Nat) {s : SysState} :
      Reachable s → Reachable (dispatchSettingsChanged size op s)
  | unload {s : SysState} : Reachable s → Reachable (onunload s)

/-! ## Helper lemmas -/

theorem countClass_removeAllByClass (c : String) :
    (f : DomForest) → (f.removeAllByClass c).countClass c = 0
  | .nil => rfl
  | .cons (.text s) tl => by
      simpa [DomForest.removeAllByClass, DomForest.countClass]
        using countClass_removeAllByClass c tl
  | .cons (.elem t i cs ti inn sr cr ch) tl => by
      by_cases h : c ∈ cs
      · simp [DomForest.removeAllByClass, h, countClass_removeAllByClass c tl]
      · simp [DomForest.removeAllByClass, DomForest.countClass, h,
          countClass_removeAllByClass c tl, countClass_removeAllByClass c ch]

theorem countClass_append (c : String) :
    (f g : DomForest) →
      (f.append g).countClass c = f.countClass c + g.countClass c
  | .nil, g => by simp [DomForest.append, DomForest.countClass]
  | .cons (.text s) tl, g => by
      simp [DomForest.append, DomForest.countClass, countClass_append c tl g]
  | .cons (.elem t i cs ti inn sr cr ch) tl, g => by
      simp [DomForest.append, DomForest.countClass, countClass_append c tl g]
      omega

theorem countById_removeFirstById (i : String) :
    (l : List StyleBlock) →
      countById i (removeFirstById i l) = countById i l - 1
  | [] => rfl
  | b :: bs => by
      by_cases h : b.sid = i
      · simp [removeFirstById, countById, h, List.countP_cons]
      · simp only [removeFirstById, if_neg h, countById, List.countP_cons]
        simp [h]
        exact countById_removeFirstById i bs

theorem countById_inject (size : String) (op : Nat) (s : StyleState)
    (h : countById STYLE_ID s.head ≤ 1) :
    countById STYLE_ID (injectCustomStyles size op s).head = 1 := by
  have h2 := countById_removeFirstById STYLE_ID s.head
  have h3 : countById STYLE_ID [mkStyleBlock size op] = 1 := by
    simp [countById, mkStyleBlock]
  have h4 : countById STYLE_ID (injectCustomStyles size op s).head
      = countById STYLE_ID (removeFirstById STYLE_ID s.head)
        + countById STYLE_ID [mkStyleBlock size op] := by
    simp [injectCustomStyles, countById, List.countP_append]
  omega

theorem countById_iterate_le (size : String) (op : Nat) (n : Nat)
    (s : StyleState) (h : countById STYLE_ID s.head ≤ 1) :
    countById STYLE_ID (((injectCustomStyles size op)^[n]) s).head ≤ 1 := by
  induction n generalizing s with
  | zero => exact h
  | succ k ih =>
      rw [Function.iterate_succ_apply]
      exact ih _ (le_of_eq (countById_inject size op s h))

theorem countById_iterate_pos (size : String) (op : Nat) (n : Nat)
    (s : StyleState) (h : countById STYLE_ID s.head ≤ 1) (hn : 0 < n) :
    countById STYLE_ID (((injectCustomStyles size op)^[n]) s).head = 1 := by
  obtain ⟨k, rfl⟩ := Nat.exists_eq_succ_of_ne_zero (Nat.pos_iff_ne_zero.mp hn)
  rw [Function.iterate_succ_apply']
  exact countById_inject size op _ (countById_iterate_le size op k s h)

theorem findById_of_countZero (i : String) (l : List StyleBlock)
    (h : countById i l = 0) : findById i l = none := by
  refine List.find?_eq_none.2 ?_
  intro b hb
  have := List.countP_eq_zero.mp h b hb
  simpa using this

theorem currentFontSize_inject (size : String) (op : Nat) (s : StyleState)
    (h : countById STYLE_ID s.head ≤ 1) :
    currentFontSize (injectCustomStyles size op s) = some (getIconSizeInPx size) := by
  have h2 := countById_removeFirstById STYLE_ID s.head
  have h0 : countById STYLE_ID (removeFirstById STYLE_ID s.head) = 0 := by omega
  have hnone := findById_of_countZero STYLE_ID _ h0
  simp only [currentFontSize, findById, injectCustomStyles] at *
  rw [List.find?_append, hnone]
  simp [mkStyleBlock]

theorem disconnectHeld_styles (s : SysState) :
    (disconnectHeld s).styles = s.styles := by
  unfold disconnectHeld
  cases s.held <;> rfl

theorem disconnectHeld_doc (s : SysState) :
    (disconnectHeld s).doc = s.doc := by
  unfold disconnectHeld
  cases s.held <;> rfl

/-- After `disconnectHeld`, no observer slot reads connected, provided every
connected slot was the held one. -/
theorem disconnectHeld_allFalse {s : SysState}
    (hinv : ∀ (i : Nat), s.observers[i]? = some true → s.held = some i) :
    ∀ (i : Nat), (disconnectHeld s).observers[i]? ≠ some true := by
  intro i hi
  unfold disconnectHeld at hi
  cases hh : s.held with
  | none =>
      rw [hh] at hi
      simp only at hi
      have hc := hinv i hi
      rw [hh] at hc
      exact Option.noConfusion hc
  | some j =>
      rw [hh] at hi
      simp only at hi
      rw [List.getElem?_set] at hi
      by_cases hij : j = i
      · rw [if_pos hij] at hi
        by_cases hjl : j < s.observers.length
        · rw [if_pos hjl] at hi
          exact Bool.noConfusion (Option.some.inj hi)
        · rw [if_neg hjl] at hi
          exact Option.noConfusion hi
      · rw [if_neg hij] at hi
        have hc := hinv i hi
        rw [hh] at hc
        exact hij (Option.some.inj hc)

/-- In every reachable state, a connected observer slot is exactly the one
the `imageToolsObserver` reference holds. -/
theorem reachable_onlyHeld {s : SysState} (h : Reachable s) :
    ∀ (i : Nat), s.observers[i]? = some true → s.held = some i := by
  induction h with
  | start f => intro i hi; simp at hi
  | inject size op _ ih => exact ih
  | @activate m s' _ ih =>
      intro i hi
      simp only [initializeImageTools] at hi ⊢
      by_cases hlt : i < (disconnectHeld s').observers.length
      · rw [List.getElem?_append_left hlt] at hi
        exact absurd hi (disconnectHeld_allFalse ih i)
      · rw [List.getElem?_append_right (Nat.le_of_not_lt hlt)] at hi
        have h0 : i - (disconnectHeld s').observers.length = 0 := by
          cases hd : i - (disconnectHeld s').observers.length with
          | zero => rfl
          | succ k => rw [hd] at hi; simp at hi
        have hieq : i = (disconnectHeld s').observers.length := by omega
        rw [hieq]
  | insert m ns _ ih => exact ih
  | settings size op _ ih => exact ih
  | unload _ ih =>
      intro i hi
      simp only [onunload] at hi
      exact absurd hi (disconnectHeld_allFalse ih i)

theorem countById_removeFirst_le (i : String) (l : List StyleBlock)
    (h : countById i l ≤ 1) : countById i (removeFirstById i l) ≤ 1 := by
  have := countById_removeFirstById i l
  omega

/-- In every reachable state, the head holds at most one style block with
the fixed identifier. -/
theorem reachable_styleCount {s : SysState} (h : Reachable s) :
    countById STYLE_ID s.styles.head ≤ 1 := by
  induction h with
  | start f => simp [countById]
  | inject size op _ ih => exact le_of_eq (countById_inject _ _ _ ih)
  | activate m _ ih =>
      simp only [initializeImageTools, disconnectHeld_styles]
      exact ih
  | insert m ns _ ih => exact ih
  | settings size op _ ih =>
      simpa [dispatchSettingsChanged] using countById_iterate_le _ _ _ _ ih
  | unload _ ih =>
      simp only [onunload, disconnectHeld_styles]
      exact countById_removeFirst_le _ _ ih

theorem count_true_zero_of_allFalse {l : List Bool}
    (h : ∀ (i : Nat), l[i]? ≠ some true) : l.count true = 0 := by
  rw [List.count_eq_zero]
  intro hmem
  obtain ⟨i, hlt, hget⟩ := List.mem_iff_getElem.mp hmem
  exact h i (by rw [List.getElem?_eq_getElem hlt, hget])

/-- One activation, run in a state where only the held observer can be
connected, disconnects it and leaves exactly one connected subscription. -/
theorem activeCount_after_activate (m : Bool) (s : SysState)
    (hinv : ∀ (i : Nat), s.observers[i]? = some true → s.held = some i) :
    activeCount (initializeImageTools m s) = 1 := by
  have hz := count_true_zero_of_allFalse (disconnectHeld_allFalse hinv)
  simp only [activeCount, initializeImageTools]
  rw [List.count_append, hz]
  rfl

theorem toolsContainer_hasClass (m : Bool) :
    (toolsContainer m).hasClass TOOLS_CONTAINER_CLASS = true := by
  simp [toolsContainer, DomNode.hasClass]

theorem addTools_marked {ctx : ImgCtx} (m : Bool) (h : hasToolsNext ctx = true) :
    addToolsToImage m ctx = ctx := by
  simp [addToolsToImage, h]

theorem addTools_unmarked {ctx : ImgCtx} (m : Bool) (h : hasToolsNext ctx = false) :
    addToolsToImage m ctx =
      { ctx with
        imgCross := "anonymous",
        parentPosition :=
          if ctx.parentPosition = "static" then "relative" else ctx.parentPosition,
        postSibs := .cons (toolsContainer m) ctx.postSibs } := by
  simp [addToolsToImage, h]

theorem addToolsP3_unmarked {ctx : ImgCtx} (h : hasToolsNext ctx = false) :
    addToolsToImageP3 ctx =
      { ctx with
        imgCross := "anonymous",
        parentPosition :=
          if ctx.parentPosition = "static" then "relative" else ctx.parentPosition,
        postSibs := .cons toolsContainerP3 ctx.postSibs } := by
  simp [addToolsToImageP3, h]

theorem countById_foldl_le (cfgs : List (String × Nat)) (s : StyleState)
    (h : countById STYLE_ID s.head ≤ 1) :
    countById STYLE_ID
      ((cfgs.foldl (fun st c => injectCustomStyles c.1 c.2 st) s).head) ≤ 1 := by
  revert h
  induction cfgs generalizing s with
  | nil => intro h; simpa using h
  | cons c cs ih =>
      intro h
      rw [List.foldl_cons]
      exact ih _ (le_of_eq (countById_inject _ _ _ h))

/-! ## Claim theorems -/

/-- Claim C1: `addToolsToImage` is idempotent.  If the image's next element
sibling already carries the tool-container marker class, the call returns
with no change to the context; a second call on the result of a first call
changes nothing; and a first call on an unmarked image installs exactly one
tool container as the image's next element sibling (one more top-level
container among the following siblings). -/
theorem C1_attach_idempotent (m : Bool) (ctx : ImgCtx) :
    (hasToolsNext ctx = true → addToolsToImage m ctx = ctx) ∧
    addToolsToImage m (addToolsToImage m ctx) = addToolsToImage m ctx ∧
    (hasToolsNext ctx = false →
      (addToolsToImage m ctx).postSibs.firstElem = some (toolsContainer m) ∧
      hasToolsNext (addToolsToImage m ctx) = true ∧
      (addToolsToImage m ctx).postSibs.topCount TOOLS_CONTAINER_CLASS
        = ctx.postSibs.topCount TOOLS_CONTAINER_CLASS + 1) := by
  by_cases h : hasToolsNext ctx = true
  · refine ⟨fun _ => addTools_marked m h, ?_, fun hf => absurd h (by simp [hf])⟩
    rw [addTools_marked m h, addTools_marked m h]
  · have h' : hasToolsNext ctx = false := by simpa using h
    have hu := addTools_unmarked m h'
    have hfirst : (addToolsToImage m ctx).postSibs.firstElem
        = some (toolsContainer m) := by
      rw [hu]
      simp [toolsContainer, DomForest.firstElem]
    have hnext : hasToolsNext (addToolsToImage m ctx) = true := by
      rw [hu]
      simp [hasToolsNext, DomForest.hasClassHead, toolsContainer,
        DomForest.firstElem, DomNode.hasClass]
    refine ⟨fun hT => absurd hT (by simp [h']), ?_, fun _ => ⟨hfirst, hnext, ?_⟩⟩
    · rw [addTools_marked m hnext]
    · rw [hu]
      simp [DomForest.topCount, toolsContainer_hasClass, Nat.add_comm]

/-- Witness for C1 at two concrete contexts: an already-marked image is
returned untouched, and an unmarked image gains a marked next sibling. -/
theorem C1_attach_idempotent_witness :
    addToolsToImage false sampleCtxMarked = sampleCtxMarked ∧
    hasToolsNext (addToolsToImage false sampleCtx) = true := by
  constructor
  · exact (C1_attach_idempotent false sampleCtxMarked).1 (by decide)
  · exact ((C1_attach_idempotent false sampleCtx).2.2 (by decide)).2.1

/-- Claim C4 is false as stated for the `imageToolsService.ts` variant of
`addToolsToImage`: at a concrete unmarked image, the container attached in
a pointer (desktop) context carries no save control — and neither does the
touch-context container. -/
theorem C4_counterexample :
    nextContainerHasSave (addToolsToImage false sampleCtx) = false ∧
    nextContainerHasSave (addToolsToImage true sampleCtx) = false ∧
    hasToolsNext sampleCtx = false := by decide

/-- Claim C4, amended: in the `imageToolsService.ts` variant, a touch
context attaches a container holding exactly the zoom control and a
pointer context one holding exactly the copy control, with no save control
in either; only the `part_003` revision attaches a save control, and it
attaches zoom, copy and save in both contexts. -/
theorem C4_device_controls_amended (ctx : ImgCtx) (h : hasToolsNext ctx = false) :
    (addToolsToImage true ctx).postSibs.firstElem = some (toolsContainer true) ∧
    (addToolsToImage false ctx).postSibs.firstElem = some (toolsContainer false) ∧
    (addToolsToImageP3 ctx).postSibs.firstElem = some toolsContainerP3 ∧
    (toolsContainer true).childrenF = .cons zoomButton .nil ∧
    (toolsContainer false).childrenF = .cons copyButton .nil ∧
    toolsContainerP3.childrenF
      = .cons zoomButtonP3 (.cons copyButtonP3 (.cons saveButtonP3 .nil)) ∧
    (toolsContainer true).hasSaveControl = false ∧
    (toolsContainer false).hasSaveControl = false ∧
    toolsContainerP3.hasSaveControl = true := by
  refine ⟨?_, ?_, ?_, rfl, rfl, rfl, by decide, by decide, by decide⟩
  · rw [addTools_unmarked true h]
    simp [toolsContainer, DomForest.firstElem]
  · rw [addTools_unmarked false h]
    simp [toolsContainer, DomForest.firstElem]
  · rw [addToolsP3_unmarked h]
    simp [toolsContainerP3, DomForest.firstElem]

/-- Witness for the amended C4 at a concrete unmarked image. -/
theorem C4_device_controls_amended_witness :
    (addToolsToImageP3 sampleCtx).postSibs.firstElem = some toolsContainerP3 :=
  (C4_device_controls_amended sampleCtx (by decide)).2.2.1

/-- Claim C5 is false as stated: when the canvas context cannot be
acquired (one way for the canvas re-encode capability to fail) while the
clipboard object write and `execCommand` also fail, the chain ends with
only the success indicator shown and nothing placed on the clipboard; and
when the re-encode produces a null blob, the encode callback raises an
uncaught error. -/
theorem C5_counterexample :
    copyImageToClipboard ⟨true, true, false, false, false, false, false, true⟩
        = CopyResult.successIndicatorOnly ∧
    copyImageToClipboard ⟨true, true, false, true, false, true, false, true⟩
        = CopyResult.uncaughtError ∧
    CopyResult.successIndicatorOnly ≠ CopyResult.urlOnClipboard ∧
    CopyResult.uncaughtError ≠ CopyResult.urlOnClipboard := by decide

/-- Claim C5, amended: when the clipboard object write fails but the
canvas re-encode succeeds end to end (context acquired, `toBlob` neither
throws nor yields null), `execCommand` fails, and the text write resolves,
the chain terminates with the image's source locator text on the
clipboard — whatever the fetch and clipboard-API availability outcomes. -/
theorem C5_copy_chain_amended (c : CopyCaps)
    (h1 : c.clipboardWriteOk = false) (h2 : c.canvasCtxOk = true)
    (h3 : c.toBlobThrows = false) (h4 : c.blobNull = false)
    (h5 : c.execCommandOk = false) (h6 : c.textWriteOk = true) :
    copyImageToClipboard c = CopyResult.urlOnClipboard ∧
    fallbackCopyImage c = CopyResult.urlOnClipboard := by
  have hf : fallbackCopyImage c = CopyResult.urlOnClipboard := by
    simp [fallbackCopyImage, h2, h3, h4, h5, h6]
  refine ⟨?_, hf⟩
  cases hfe : c.fetchOk <;> cases hca : c.clipboardApiAvail <;>
    simp [copyImageToClipboard, hfe, hca, h1, hf]

/-- Witness for the amended C5 at a concrete capability record. -/
theorem C5_copy_chain_amended_witness :
    copyImageToClipboard ⟨true, true, false, true, false, false, false, true⟩
      = CopyResult.urlOnClipboard :=
  (C5_copy_chain_amended ⟨true, true, false, true, false, false, false, true⟩
    rfl rfl rfl rfl rfl rfl).1

/-- Claim C6: the icon-size setting maps small, medium, large to 14, 18
and 22 pixels; injecting styles at "small" renders the buttons at 14px and
a subsequent re-injection at "large" (exactly what the settings-changed
listener runs) moves them to 22px; and a style re-injection touches
neither the observers, the held handle, nor the document — no reactivation
is involved. -/
theorem C6_icon_size_mapping (s : StyleState) (t : SysState) (op1 op2 : Nat)
    (h : countById STYLE_ID s.head ≤ 1) :
    getIconSizeInPx "small" = 14 ∧
    getIconSizeInPx "medium" = 18 ∧
    getIconSizeInPx "large" = 22 ∧
    currentFontSize (injectCustomStyles "small" op1 s) = some 14 ∧
    currentFontSize
        (injectCustomStyles "large" op2 (injectCustomStyles "small" op1 s))
      = some 22 ∧
    (sysInject "large" op2 t).observers = t.observers ∧
    (sysInject "large" op2 t).held = t.held ∧
    (sysInject "large" op2 t).doc = t.doc := by
  refine ⟨rfl, rfl, rfl, ?_, ?_, rfl, rfl, rfl⟩
  · rw [currentFontSize_inject "small" op1 s h]
    decide
  · rw [currentFontSize_inject "large" op2 _
      (le_of_eq (countById_inject "small" op1 s h))]
    decide

/-- Witness for C6 from an empty head. -/
theorem C6_icon_size_mapping_witness :
    currentFontSize
        (injectCustomStyles "large" 50 (injectCustomStyles "small" 50 ⟨[], 0⟩))
      = some 22 :=
  (C6_icon_size_mapping ⟨[], 0⟩ ⟨.nil, ⟨[], 0⟩, [], none⟩ 50 50
    (by decide)).2.2.2.2.1

/-- Claim C7: starting from a head with at most one block carrying the
fixed identifier, one `injectCustomStyles` call leaves exactly one such
block, the call replaces (removes the prior block, then appends) rather
than appends, and any further sequence of calls — whatever configurations
the settings-change signals carry — keeps the count at most one. -/
theorem C7_style_block_singleton (size : String) (op : Nat) (s : StyleState)
    (h : countById STYLE_ID s.head ≤ 1) :
    countById STYLE_ID (injectCustomStyles size op s).head = 1 ∧
    (injectCustomStyles size op s).head
      = removeFirstById STYLE_ID s.head ++ [mkStyleBlock size op] ∧
    ∀ cfgs : List (String × Nat),
      countById STYLE_ID
        ((cfgs.foldl (fun st c => injectCustomStyles c.1 c.2 st) s).head) ≤ 1 :=
  ⟨countById_inject size op s h, rfl, fun cfgs => countById_foldl_le cfgs s h⟩

/-- Witness for C7 from a head already holding one block. -/
theorem C7_style_block_singleton_witness :
    countById STYLE_ID
      (injectCustomStyles "small" 50 ⟨[mkStyleBlock "medium" 50], 0⟩).head = 1 :=
  (C7_style_block_singleton "small" 50 ⟨[mkStyleBlock "medium" 50], 0⟩
    (by decide)).1

/-- Claim C9 is false as stated: the filename `saveImage` puts on the
download anchor is computed from the clock alone, so saving `a.png` and
saving `b.png` at the same instant produce the same filename —
`image-42.png` at time 42 — which is therefore not derived from the image
source `a.png` (only the anchor's href is). -/
theorem C9_counterexample :
    (saveImage "a.png" 42).1.filename = (saveImage "b.png" 42).1.filename ∧
    (saveImage "a.png" 42).1.filename = "image-42.png" ∧
    (saveImage "a.png" 42).1.href = "a.png" := by
  exact ⟨rfl, rfl, rfl⟩

/-- Claim C9, amended: clicking save always triggers the link-based
download with href equal to the image source and filename
`image-<timestamp>.png`, and the context-menu simulation fallback never
runs (the `if (!link.download)` guard is never taken, since the filename
is never empty). -/
theorem C9_save_filename_amended (src : String) (now : Nat) :
    saveImage src now
      = (⟨src, "image-" ++ toString now ++ ".png"⟩, false) := by
  have hne : saveFilename now ≠ "" := by
    intro hemp
    have hlen := congrArg String.length hemp
    simp only [saveFilename, String.length_append] at hlen
    have h6 : "image-".length = 6 := rfl
    have h4 : ".png".length = 4 := rfl
    have h0 : "".length = 0 := rfl
    omega
  have hb : (saveFilename now == "") = false := by
    rw [beq_eq_false_iff_ne]
    exact hne
  show ((⟨src, saveFilename now⟩ : DownloadLink), saveFilename now == "")
      = (⟨src, "image-" ++ toString now ++ ".png"⟩, false)
  rw [hb]
  rfl

theorem mem_addedImagesOfNode (img n : DomNode) :
    img ∈ addedImagesOfNode n ↔
      (n.isImg = true ∧ img = n) ∨
      (n.isElem = true ∧ n.isImg = false ∧ img ∈ n.descImgs) := by
  cases n with
  | text s =>
      simp [addedImagesOfNode, DomNode.isElem, DomNode.isImg]
  | elem t i cs ti inn sr cr ch =>
      by_cases hi : (DomNode.elem t i cs ti inn sr cr ch).isImg = true
      · simp [addedImagesOfNode, DomNode.isElem, hi]
      · have hi' : (DomNode.elem t i cs ti inn sr cr ch).isImg = false := by
          simpa using hi
        simp [addedImagesOfNode, DomNode.isElem, hi']

theorem listeners_sysInject (size : String) (op : Nat) (s : SysState) :
    (sysInject size op s).styles.listeners = s.styles.listeners + 1 := rfl

theorem listeners_iterate (size : String) (op : Nat) :
    ∀ (n : Nat) (st : StyleState),
      (((injectCustomStyles size op)^[n]) st).listeners = st.listeners + n
  | 0, st => rfl
  | n + 1, st => by
      rw [Function.iterate_succ_apply]
      rw [listeners_iterate size op n]
      simp [injectCustomStyles]
      omega

theorem init_disconnects (m : Bool) (s' : SysState) (i : Nat)
    (hi : s'.held = some i) (hlt : i < s'.observers.length) :
    (initializeImageTools m s').observers[i]? = some false := by
  simp only [initializeImageTools]
  unfold disconnectHeld
  rw [hi]
  simp only
  have hlen : i < (s'.observers.set i false).length := by
    rw [List.length_set]
    exact hlt
  rw [List.getElem?_append_left hlen, List.getElem?_set_self hlt]

theorem any_true_eq_false_of_allFalse {l : List Bool}
    (h : ∀ (i : Nat), l[i]? ≠ some true) : (l.any (· == true)) = false := by
  rw [List.any_eq_false]
  intro x hx hpx
  have hxt : x = true := by
    cases x
    · exact absurd hpx (by simp)
    · rfl
  subst hxt
  obtain ⟨i, hlt, hget⟩ := List.mem_iff_getElem.mp hx
  exact h i (by rw [List.getElem?_eq_getElem hlt, hget])

/-- Claim C8: the watcher callback's candidate images are exactly these: an
image is processed by a batch precisely when some `"childList"` record of
the batch reports an added element node that either is that image itself,
or is a non-image element among whose image descendants
(`querySelectorAll("img")`) the image occurs.  Nodes outside the reported
batch contribute nothing (right-to-left direction), and each candidate is
handed to `addToolsToImage` only after the duplicate-sibling check. -/
theorem C8_watcher_processing (img : DomNode) (muts : List MutationRecord) :
    img ∈ batchImages muts ↔
      ∃ mrec ∈ muts, mrec.mutType = "childList" ∧
        ∃ n ∈ mrec.addedNodes,
          (n.isImg = true ∧ img = n) ∨
          (n.isElem = true ∧ n.isImg = false ∧ img ∈ n.descImgs) := by
  simp only [batchImages, List.mem_flatMap, List.mem_filter]
  constructor
  · rintro ⟨mrec, ⟨hm, ht⟩, n, hn, himg⟩
    exact ⟨mrec, hm, by simpa using ht, n, hn,
      (mem_addedImagesOfNode img n).1 himg⟩
  · rintro ⟨mrec, hm, ht, n, hn, hc⟩
    exact ⟨mrec, ⟨hm, by simpa using ht⟩, n, hn,
      (mem_addedImagesOfNode img n).2 hc⟩

/-- Claim C2: in every reachable state, running `initializeImageTools`
twice in a row leaves exactly one connected subscription (indeed already
the first run does), and the observer held after the first run is read as
disconnected after the second — the second run disconnects it before
creating the new one. -/
theorem C2_single_subscription (m1 m2 : Bool) {s : SysState}
    (h : Reachable s) :
    activeCount (initializeImageTools m2 (initializeImageTools m1 s)) = 1 ∧
    activeCount (initializeImageTools m1 s) = 1 ∧
    ∀ (i : Nat), (initializeImageTools m1 s).held = some i →
      (initializeImageTools m2 (initializeImageTools m1 s)).observers[i]?
        = some false := by
  have hinv1 := reachable_onlyHeld h
  have hinv2 := reachable_onlyHeld (Reachable.activate m1 h)
  refine ⟨activeCount_after_activate m2 _ hinv2, activeCount_after_activate m1 _ hinv1, ?_⟩
  intro i hi
  have hx : (initializeImageTools m1 s).held
      = some ((disconnectHeld s).observers.length) := rfl
  have hieq : (disconnectHeld s).observers.length = i :=
    Option.some.inj (hx.symm.trans hi)
  have hlt : i < (initializeImageTools m1 s).observers.length := by
    have hlen2 : (initializeImageTools m1 s).observers.length
        = (disconnectHeld s).observers.length + 1 := by
      simp [initializeImageTools]
    omega
  exact init_disconnects m2 _ i hi hlt

/-- Witness for C2 from the fresh state: two activations leave one
connected subscription. -/
theorem C2_single_subscription_witness :
    activeCount (initializeImageTools false
      (initializeImageTools false ⟨.nil, ⟨[], 0⟩, [], none⟩)) = 1 :=
  (C2_single_subscription false false (Reachable.start .nil)).1

/-- Claim C3: after `onunload` runs on any reachable state, the document
holds zero tool containers, the head holds zero blocks with the style id,
the observer reference is cleared and every observer is disconnected; and
a subsequent host insertion is appended untouched — no attachment happens —
so a container-free insertion leaves the container count at zero. -/
theorem C3_full_teardown {s : SysState} (h : Reachable s) (m : Bool)
    (ns : DomForest) (hns : ns.countClass TOOLS_CONTAINER_CLASS = 0) :
    (onunload s).doc.countClass TOOLS_CONTAINER_CLASS = 0 ∧
    countById STYLE_ID (onunload s).styles.head = 0 ∧
    (onunload s).held = none ∧
    ((onunload s).observers.any (· == true)) = false ∧
    (hostInsert m ns (onunload s)).doc = (onunload s).doc.append ns ∧
    (hostInsert m ns (onunload s)).doc.countClass TOOLS_CONTAINER_CLASS = 0 := by
  have hdoc : (onunload s).doc.countClass TOOLS_CONTAINER_CLASS = 0 :=
    countClass_removeAllByClass TOOLS_CONTAINER_CLASS _
  have hstyle : countById STYLE_ID (onunload s).styles.head = 0 := by
    have hle := reachable_styleCount h
    have hrem := countById_removeFirstById STYLE_ID (disconnectHeld s).styles.head
    rw [disconnectHeld_styles] at hrem
    simp only [onunload]
    rw [disconnectHeld_styles]
    omega
  have hany : ((onunload s).observers.any (· == true)) = false :=
    any_true_eq_false_of_allFalse (disconnectHeld_allFalse (reachable_onlyHeld h))
  have hins : (hostInsert m ns (onunload s)).doc = (onunload s).doc.append ns := by
    simp only [hostInsert]
    rw [hany]
    simp
  refine ⟨hdoc, hstyle, rfl, hany, hins, ?_⟩
  rw [hins, countClass_append, hdoc, hns]

/-- Witness for C3 on a concretely reached state (inject, then activate,
then unload, then a container-free insertion). -/
theorem C3_full_teardown_witness :
    countById STYLE_ID
        (onunload (initializeImageTools false
          (sysInject "small" 50 ⟨.nil, ⟨[], 0⟩, [], none⟩))).styles.head = 0 ∧
    (onunload (initializeImageTools false
          (sysInject "small" 50 ⟨.nil, ⟨[], 0⟩, [], none⟩))).doc.countClass
        TOOLS_CONTAINER_CLASS = 0 :=
  have hr : Reachable (initializeImageTools false
      (sysInject "small" 50 ⟨.nil, ⟨[], 0⟩, [], none⟩)) :=
    Reachable.activate false (Reachable.inject "small" 50 (Reachable.start .nil))
  ⟨(C3_full_teardown hr false .nil rfl).2.1, (C3_full_teardown hr false .nil rfl).1⟩

/-- Claim C10: every `injectCustomStyles` call adds one settings-changed
window listener (n calls from any state add n); neither `onunload` nor any
other lifecycle operation removes one; and in any reachable state with at
least one listener, dispatching the settings-changed event after teardown
re-runs style injection and re-creates the style block (count goes from 0
back to 1) in the supposedly torn-down document. -/
theorem C10_listener_leak (size : String) (op : Nat) (m : Bool) (n : Nat)
    {s : SysState} (h : Reachable s) (hl : 0 < s.styles.listeners) :
    (((sysInject size op)^[n]) s).styles.listeners = s.styles.listeners + n ∧
    (onunload s).styles.listeners = s.styles.listeners ∧
    (initializeImageTools m s).styles.listeners = s.styles.listeners ∧
    (hostInsert m .nil s).styles.listeners = s.styles.listeners ∧
    countById STYLE_ID (onunload s).styles.head = 0 ∧
    countById STYLE_ID
      (dispatchSettingsChanged size op (onunload s)).styles.head = 1 := by
  have hunl : (onunload s).styles.listeners = s.styles.listeners := by
    simp only [onunload]
    rw [disconnectHeld_styles]
  have hstyle : countById STYLE_ID (onunload s).styles.head = 0 := by
    have hle := reachable_styleCount h
    have hrem := countById_removeFirstById STYLE_ID (disconnectHeld s).styles.head
    rw [disconnectHeld_styles] at hrem
    simp only [onunload]
    rw [disconnectHeld_styles]
    omega
  have hiter : (((sysInject size op)^[n]) s).styles.listeners
      = s.styles.listeners + n := by
    induction n with
    | zero => rfl
    | succ k ih =>
        rw [Function.iterate_succ_apply']
        rw [listeners_sysInject]
        omega
  refine ⟨hiter, hunl, ?_, rfl, hstyle, ?_⟩
  · simp only [initializeImageTools]
    rw [disconnectHeld_styles]
  · simp only [dispatchSettingsChanged]
    exact countById_iterate_pos size op _ _ (by omega) (by rw [hunl]; exact hl)

/-- Witness for C10 on a concretely reached state with one leaked
listener. -/
theorem C10_listener_leak_witness :
    countById STYLE_ID
      (dispatchSettingsChanged "large" 50
        (onunload (sysInject "small" 50 ⟨.nil, ⟨[], 0⟩, [], none⟩))).styles.head
      = 1 :=
  (C10_listener_leak "large" 50 false 0
    (Reachable.inject "small" 50 (Reachable.start .nil)) (by decide)).2.2.2.2.2

end ImageTools
